import Mathlib

/-!
Shallow embedding of the udt-rs asynchronous adapter (src/lib.rs, src/socket.rs,
src/error.rs).  Native FFI calls (the `udt_sys` collaborator) are modelled as
oracle parameters: each embedded function takes the outcome of the native calls
it performs as explicit arguments, and the control flow around those outcomes is
translated from the Rust source.
-/

set_option maxRecDepth 2000

namespace Udt

/-- `UDT::ERROR` sentinel exposed by the `udt_sys` bindings (value -1 in the
native UDT library). -/
def UDT_ERROR : Int := -1

/-- `UDT::INVALID_SOCK` sentinel exposed by the `udt_sys` bindings (value -1 in
the native UDT library). -/
def UDT_INVALID_SOCK : Int := -1

/-- Rust `as usize` cast from a (possibly negative) machine integer. -/
def intAsUsize (i : Int) : Nat := (i % (2 : Int) ^ 64).toNat

/-- `udt_sys::EPOLLOpt`: a bit-flag wrapper over a machine word. -/
structure EPOLLOpt where
  val : Nat
deriving DecidableEq, Repr

instance : AndOp EPOLLOpt := ⟨fun a b => ⟨Nat.land a.val b.val⟩⟩

/-- `udt_sys::EPOLLOpt::UDT_EPOLL_IN` (read-readiness interest). -/
def UDT_EPOLL_IN : EPOLLOpt := ⟨1⟩

/-- `udt_sys::EPOLLOpt::UDT_EPOLL_OUT` (write-readiness interest). -/
def UDT_EPOLL_OUT : EPOLLOpt := ⟨4⟩

/-- `UdtStatus` from src/socket.rs. -/
inductive UdtStatus
  | Init
  | Opened
  | Listening
  | Connecting
  | Connected
  | Broken
  | Closing
  | Closed
  | NonExist
deriving DecidableEq, Repr

/-- `UdtSocket` from src/socket.rs: an opaque native handle. -/
structure UdtSocket where
  id : Int
deriving DecidableEq, Repr

/-- `std::net::SocketAddr`, modelled abstractly as host and port. -/
structure SocketAddr where
  host : String
  port : Nat
deriving DecidableEq, Repr

/-- The address `"0.0.0.0:0".parse().unwrap()` used as the fallback value in
src/socket.rs. -/
def addrUnspecified : SocketAddr := ⟨"0.0.0.0", 0⟩

/-- `UdtError` from src/error.rs. -/
inductive UdtError
  | Success (msg : String)
  | ConnSetup (msg : String)
  | NoServer (msg : String)
  | ConnRej (msg : String)
  | SockFail (msg : String)
  | SecFail (msg : String)
  | ConnFail (msg : String)
  | ConnLost (msg : String)
  | NoConn (msg : String)
  | Resource (msg : String)
  | Thread (msg : String)
  | NoBuf (msg : String)
  | File (msg : String)
  | InvRdOff (msg : String)
  | RdPerm (msg : String)
  | InvWrOff (msg : String)
  | WrPerm (msg : String)
  | InvOp (msg : String)
  | BoundSock (msg : String)
  | ConnSock (msg : String)
  | InvParam (msg : String)
  | InvSock (msg : String)
  | UnboundSock (msg : String)
  | NoListen (msg : String)
  | RdvNoServ (msg : String)
  | RdvUnbound (msg : String)
  | StreamIll (msg : String)
  | DgramIll (msg : String)
  | DupListen (msg : String)
  | LargeMsg (msg : String)
  | AsyncFail (msg : String)
  | AsyncSnd (msg : String)
  | AsyncRcv (msg : String)
  | Timeout (msg : String)
  | PeerErr (msg : String)
deriving DecidableEq, Repr

namespace UdtError

/-- `impl From<i32> for UdtError` from src/error.rs.  `none` models the
`unreachable!` panic on an unrecognized code; `desc` is the thread-local
description returned by `get_error_desc()`. -/
def fromCode (code : Int) (desc : String) : Option UdtError :=
  match code with
  | 0 => some (.Success desc)
  | 1000 => some (.ConnSetup desc)
  | 1001 => some (.NoServer desc)
  | 1002 => some (.ConnRej desc)
  | 1003 => some (.SockFail desc)
  | 1004 => some (.SecFail desc)
  | 2000 => some (.ConnFail desc)
  | 2001 => some (.ConnLost desc)
  | 2002 => some (.NoConn desc)
  | 3000 => some (.Resource desc)
  | 3001 => some (.Thread desc)
  | 3002 => some (.NoBuf desc)
  | 4000 => some (.File desc)
  | 4001 => some (.InvRdOff desc)
  | 4002 => some (.RdPerm desc)
  | 4003 => some (.InvWrOff desc)
  | 4004 => some (.WrPerm desc)
  | 5000 => some (.InvOp desc)
  | 5001 => some (.BoundSock desc)
  | 5002 => some (.ConnSock desc)
  | 5003 => some (.InvParam desc)
  | 5004 => some (.InvSock desc)
  | 5005 => some (.UnboundSock desc)
  | 5006 => some (.NoListen desc)
  | 5007 => some (.RdvNoServ desc)
  | 5008 => some (.RdvUnbound desc)
  | 5009 => some (.StreamIll desc)
  | 5010 => some (.DgramIll desc)
  | 5011 => some (.DupListen desc)
  | 5012 => some (.LargeMsg desc)
  | 6000 => some (.AsyncFail desc)
  | 6001 => some (.AsyncSnd desc)
  | 6002 => some (.AsyncRcv desc)
  | 6003 => some (.Timeout desc)
  | 7000 => some (.PeerErr desc)
  | _ => none

/-- Whether the error is the `Success` variant (native code 0). -/
def isSuccess : UdtError → Bool
  | .Success _ => true
  | _ => false

/-- Whether the error is the would-block signal for sending (`UDT_EASYNCSND`). -/
def isAsyncSnd : UdtError → Bool
  | .AsyncSnd _ => true
  | _ => false

/-- Whether the error is the would-block signal for receiving (`UDT_EASYNCRCV`). -/
def isAsyncRcv : UdtError → Bool
  | .AsyncRcv _ => true
  | _ => false

end UdtError

/-- `std::io::ErrorKind` values used by `impl From<UdtError> for io::Error`. -/
inductive ErrorKind
  | ConnectionRefused
  | AddrNotAvailable
  | ConnectionAborted
  | NotConnected
  | Other
  | NotFound
  | InvalidInput
  | PermissionDenied
  | AddrInUse
  | WouldBlock
  | TimedOut
deriving DecidableEq, Repr

/-- The `ErrorKind` chosen by `impl From<UdtError> for io::Error` in
src/error.rs. -/
def UdtError.ioErrorKind : UdtError → ErrorKind
  | .Success _ => .Other
  | .ConnSetup _ => .ConnectionRefused
  | .NoServer _ => .ConnectionRefused
  | .ConnRej _ => .ConnectionRefused
  | .SockFail _ => .AddrNotAvailable
  | .SecFail _ => .ConnectionRefused
  | .ConnFail _ => .ConnectionRefused
  | .ConnLost _ => .ConnectionAborted
  | .NoConn _ => .NotConnected
  | .Resource _ => .Other
  | .Thread _ => .Other
  | .NoBuf _ => .Other
  | .File _ => .NotFound
  | .InvRdOff _ => .InvalidInput
  | .RdPerm _ => .PermissionDenied
  | .InvWrOff _ => .InvalidInput
  | .WrPerm _ => .PermissionDenied
  | .InvOp _ => .InvalidInput
  | .BoundSock _ => .AddrInUse
  | .ConnSock _ => .AddrInUse
  | .InvParam _ => .InvalidInput
  | .InvSock _ => .AddrNotAvailable
  | .UnboundSock _ => .NotConnected
  | .NoListen _ => .InvalidInput
  | .RdvNoServ _ => .ConnectionRefused
  | .RdvUnbound _ => .ConnectionRefused
  | .StreamIll _ => .InvalidInput
  | .DgramIll _ => .InvalidInput
  | .DupListen _ => .AddrInUse
  | .LargeMsg _ => .Other
  | .AsyncFail _ => .WouldBlock
  | .AsyncSnd _ => .WouldBlock
  | .AsyncRcv _ => .WouldBlock
  | .Timeout _ => .TimedOut
  | .PeerErr _ => .Other

/-- `std::io::Error` built from a `UdtError` (the `io::Error::new(kind, e)`
conversion keeps the source error). -/
structure IoError where
  kind : ErrorKind
  source : UdtError
deriving DecidableEq, Repr

/-- `UdtError → io::Error` conversion (`e.into()`). -/
def UdtError.toIoError (e : UdtError) : IoError := ⟨e.ioErrorKind, e⟩

/-- `error::get_error` from src/error.rs: reads the thread-local last error;
the `Success` variant (code 0) yields `Ok` with the caller-supplied fallback
value, anything else is returned as the error. -/
def get_error (lastError : UdtError) (ok : α) : Except UdtError α :=
  match lastError with
  | .Success _ => .ok ok
  | e => .error e

namespace UdtSocket

/-- `UdtSocket::recv` from src/socket.rs.  `nativeResult` is the return value
of `udt_sys::udt_recv`, `lastError` the thread-local error state consulted by
`error::get_error`. -/
def recv (nativeResult : Int) (lastError : UdtError) : Except UdtError Nat :=
  if nativeResult == UDT_ERROR then
    get_error lastError 0
  else
    .ok (intAsUsize nativeResult)

/-- `UdtSocket::send` from src/socket.rs. -/
def send (nativeResult : Int) (lastError : UdtError) : Except UdtError Nat :=
  if nativeResult == UDT_ERROR then
    get_error lastError 0
  else
    .ok (intAsUsize nativeResult)

/-- `UdtSocket::local_addr` from src/socket.rs.  `filledAddr` is the address
the native `udt_getsockname` wrote into the out-parameter on success. -/
def local_addr (nativeResult : Int) (lastError : UdtError)
    (filledAddr : SocketAddr) : Except UdtError SocketAddr :=
  if nativeResult == UDT_ERROR then
    get_error lastError addrUnspecified
  else
    .ok filledAddr

/-- The `for addr in addrs` loop body of `UdtSocket::connect` from
src/socket.rs: both arms of the branch `return`, so the loop never reaches a
second iteration; `none` models falling through an empty iterator.
`native` gives the `udt_sys::udt_connect` return value for each address. -/
def connectLoop (native : SocketAddr → Int) (lastError : UdtError) :
    List SocketAddr → Option (Except UdtError Unit)
  | [] => none
  | addr :: _ =>
    some
      (if native addr == UDT_ERROR then
        get_error lastError ()
      else
        .ok ())

/-- `UdtSocket::connect` from src/socket.rs.  `resolution` is the result of
`addrs.to_socket_addrs()` (`none` when resolution itself failed). -/
def connect (resolution : Option (List SocketAddr))
    (native : SocketAddr → Int) (lastError : UdtError) : Except UdtError Unit :=
  match resolution with
  | some addrs =>
    match connectLoop native lastError addrs with
    | some r => r
    | none => .error (.ConnFail "invalid address")
  | none => .error (.ConnFail "invalid address")

end UdtSocket

/-- `Epoll` from src/lib.rs: native set identifier plus the two registration
counters used to size `wait`'s result buffers. -/
structure Epoll where
  id : Int
  num_rd_sock : Nat
  num_wr_sock : Nat
deriving DecidableEq, Repr

namespace Epoll

/-- `Epoll::new` from src/lib.rs.  `nativeResult` is the return value of
`udt_sys::udt_epoll_create`. -/
def new (nativeResult : Int) (lastError : UdtError) : Except UdtError Epoll :=
  if nativeResult == UDT_ERROR then
    get_error lastError ⟨0, 0, 0⟩
  else
    .ok ⟨nativeResult, 0, 0⟩

/-- The counter updates performed by the success branch of `Epoll::add`:
each interest bit present in `event` increments its counter. -/
def addSuccess (e : Epoll) (event : EPOLLOpt) : Epoll :=
  let e :=
    if event &&& UDT_EPOLL_IN == UDT_EPOLL_IN then
      { e with num_rd_sock := e.num_rd_sock + 1 }
    else
      e
  if event &&& UDT_EPOLL_OUT == UDT_EPOLL_OUT then
    { e with num_wr_sock := e.num_wr_sock + 1 }
  else
    e

/-- `Epoll::add` from src/lib.rs, returning the updated `Epoll` state in place
of Rust's `&mut self`.  `nativeResult` is the return value of
`udt_sys::udt_epoll_add_usock`. -/
def add (e : Epoll) (event : EPOLLOpt) (nativeResult : Int)
    (lastError : UdtError) : Except UdtError Epoll :=
  if nativeResult == UDT_ERROR then
    (get_error lastError ()).map fun _ => e
  else
    .ok (e.addSuccess event)

/-- The counter updates performed by the success branch of `Epoll::remove`:
each interest bit present in the event reported by `socket.get_event()`
decrements its counter. -/
def removeSuccess (e : Epoll) (event : EPOLLOpt) : Epoll :=
  let e :=
    if event &&& UDT_EPOLL_IN == UDT_EPOLL_IN then
      { e with num_rd_sock := e.num_rd_sock - 1 }
    else
      e
  if event &&& UDT_EPOLL_OUT == UDT_EPOLL_OUT then
    { e with num_wr_sock := e.num_wr_sock - 1 }
  else
    e

/-- `Epoll::remove` from src/lib.rs.  `getEventResult` is the result of
`socket.get_event()` (propagated by `?`); `nativeResult` the return value of
`udt_sys::udt_epoll_remove_usock`. -/
def remove (e : Epoll) (getEventResult : Except UdtError EPOLLOpt)
    (nativeResult : Int) (lastError : UdtError) : Except UdtError Epoll :=
  match getEventResult with
  | .error err => .error err
  | .ok event =>
    if nativeResult == UDT_ERROR then
      (get_error lastError ()).map fun _ => e
    else
      .ok (e.removeSuccess event)

/-- Outcome of the native `udt_sys::udt_epoll_wait2` call: its return value,
the contents it left in the two in-place result buffers, the signalled entry
counts it wrote to the two length out-parameters, and the thread-local error
state. -/
structure NativeWaitResult where
  result : Int
  rdOut : List Int
  rdLen : Int
  wrOut : List Int
  wrLen : Int
  lastError : UdtError

/-- `Epoll::wait` from src/lib.rs: allocates the read and write result buffers
from the two registration counters, runs the native wait on them, and on
success truncates each buffer to the signalled count. -/
def wait (e : Epoll) (timeout : Int)
    (native : List Int → List Int → Int → NativeWaitResult) :
    Except UdtError (List Int × List Int) :=
  let rd_array := List.replicate e.num_rd_sock UDT_INVALID_SOCK
  let wr_array := List.replicate e.num_wr_sock UDT_INVALID_SOCK
  let r := native rd_array wr_array timeout
  if r.result == UDT_ERROR then
    get_error r.lastError ([], [])
  else
    .ok (r.rdOut.take (intAsUsize r.rdLen), r.wrOut.take (intAsUsize r.wrLen))

end Epoll

/-- Body of the closure spawned on every epoll-based suspension in src/lib.rs
(`if let Ok(_) = epoll.wait(-1) { waker.wake(); }`): given the result of the
background `wait(-1)` call, returns whether `waker.wake()` is invoked. -/
def backgroundWake : Except UdtError (List Int × List Int) → Bool
  | .ok _ => true
  | .error _ => false

/-- Record of a suspension established by a poll: the interest the socket was
registered with on the private `Epoll`, the socket identifier registered, and
the wake behaviour of the spawned background thread as a function of the
background wait's result. -/
structure SpawnedWait where
  interest : EPOLLOpt
  socketId : Int
  wakeOnWaitResult : Except UdtError (List Int × List Int) → Bool

/-- `futures::task::Poll`, with the `Pending` case carrying the suspension the
poll established before returning. -/
inductive PollOutcome (α : Type)
  | ready : α → PollOutcome α
  | pending : SpawnedWait → PollOutcome α

/-- Whether a poll outcome is `Poll::Pending`. -/
def PollOutcome.isPending : PollOutcome α → Bool
  | .pending _ => true
  | .ready _ => false

/-- `UdtAsyncStream` from src/lib.rs. -/
structure UdtAsyncStream where
  socket : UdtSocket
deriving DecidableEq, Repr

namespace UdtAsyncStream

/-- `poll_read` of `impl AsyncRead for UdtAsyncStream` (src/lib.rs).
`recvResult` is the outcome of `self.socket.recv(buf)`, `epollNew` the outcome
of `Epoll::new()`, and `epollAdd` the outcome of `epoll.add(&self.socket, ev)`
as a function of the interest `ev` passed to it. -/
def poll_read (socket : UdtSocket) (recvResult : Except UdtError Nat)
    (epollNew : Except UdtError Epoll)
    (epollAdd : EPOLLOpt → Except UdtError Unit) :
    PollOutcome (Except IoError Nat) :=
  match recvResult with
  | .ok s => .ready (.ok s)
  | .error e =>
    match e with
    | .AsyncRcv _ =>
      match epollNew with
      | .error err => .ready (.error err.toIoError)
      | .ok _epoll =>
        match epollAdd UDT_EPOLL_IN with
        | .error err => .ready (.error err.toIoError)
        | .ok _ => .pending ⟨UDT_EPOLL_IN, socket.id, backgroundWake⟩
    | e => .ready (.error e.toIoError)

/-- `poll_write` of `impl AsyncWrite for UdtAsyncStream` (src/lib.rs).
`sendResult` is the outcome of `self.socket.send(buf)` and `snddata` the
outcome of `self.socket.get_snddata()`. -/
def poll_write (socket : UdtSocket) (sendResult : Except UdtError Nat)
    (snddata : Except UdtError Int) (epollNew : Except UdtError Epoll)
    (epollAdd : EPOLLOpt → Except UdtError Unit) :
    PollOutcome (Except IoError Nat) :=
  match sendResult with
  | .ok s => .ready (.ok s)
  | .error e =>
    match e with
    | .AsyncSnd _ =>
      match snddata with
      | .ok bytes =>
        if bytes == 0 then
          .ready (.ok 0)
        else
          match epollNew with
          | .error err => .ready (.error err.toIoError)
          | .ok _epoll =>
            match epollAdd UDT_EPOLL_OUT with
            | .error err => .ready (.error err.toIoError)
            | .ok _ => .pending ⟨UDT_EPOLL_OUT, socket.id, backgroundWake⟩
      | .error err => .ready (.error err.toIoError)
    | e => .ready (.error e.toIoError)

/-- `poll_flush` of `impl AsyncWrite for UdtAsyncStream` (src/lib.rs). -/
def poll_flush (socket : UdtSocket) (snddata : Except UdtError Int)
    (epollNew : Except UdtError Epoll)
    (epollAdd : EPOLLOpt → Except UdtError Unit) :
    PollOutcome (Except IoError Unit) :=
  match snddata with
  | .ok bytes =>
    if bytes == 0 then
      .ready (.ok ())
    else
      match epollNew with
      | .error err => .ready (.error err.toIoError)
      | .ok _epoll =>
        match epollAdd UDT_EPOLL_OUT with
        | .error err => .ready (.error err.toIoError)
        | .ok _ => .pending ⟨UDT_EPOLL_OUT, socket.id, backgroundWake⟩
  | .error err => .ready (.error err.toIoError)

/-- The `match self.socket.close() { Ok(()) => Ok(()), Err(e) => Err(e.into()) }`
expression inside `poll_close`. -/
def closeResultToIo : Except UdtError Unit → Except IoError Unit
  | .ok _ => .ok ()
  | .error e => .error e.toIoError

/-- `poll_close` of `impl AsyncWrite for UdtAsyncStream` (src/lib.rs).
`closeResult` is the outcome of `self.socket.close()`, invoked only in the
zero-pending-bytes branch. -/
def poll_close (socket : UdtSocket) (snddata : Except UdtError Int)
    (epollNew : Except UdtError Epoll)
    (epollAdd : EPOLLOpt → Except UdtError Unit)
    (closeResult : Except UdtError Unit) :
    PollOutcome (Except IoError Unit) :=
  match snddata with
  | .ok bytes =>
    if bytes == 0 then
      .ready (closeResultToIo closeResult)
    else
      match epollNew with
      | .error err => .ready (.error err.toIoError)
      | .ok _epoll =>
        match epollAdd UDT_EPOLL_OUT with
        | .error err => .ready (.error err.toIoError)
        | .ok _ => .pending ⟨UDT_EPOLL_OUT, socket.id, backgroundWake⟩
  | .error err => .ready (.error err.toIoError)

end UdtAsyncStream

/-- `AcceptFuture` from src/lib.rs: wraps the listening socket. -/
structure AcceptFuture where
  socket : UdtSocket
deriving DecidableEq, Repr

/-- `impl Future for AcceptFuture` poll (src/lib.rs).  `acceptResult` is the
outcome of `self.socket.accept()`; `setRcvsyn` and `setSndsyn` are the
outcomes of the two blocking-flag configuration calls on the newly accepted
socket, as functions of the flag value passed to them. -/
def AcceptFuture.poll (f : AcceptFuture)
    (acceptResult : Except UdtError (UdtSocket × SocketAddr))
    (setRcvsyn : Bool → Except UdtError Unit)
    (setSndsyn : Bool → Except UdtError Unit)
    (epollNew : Except UdtError Epoll)
    (epollAdd : EPOLLOpt → Except UdtError Unit) :
    PollOutcome (Except UdtError (UdtAsyncStream × SocketAddr)) :=
  match acceptResult with
  | .ok (socket, addr) =>
    let r_b := setRcvsyn false
    let s_b := setSndsyn false
    match r_b with
    | .error err => .ready (.error err)
    | .ok _ =>
      match s_b with
      | .error err => .ready (.error err)
      | .ok _ => .ready (.ok (⟨socket⟩, addr))
  | .error e =>
    match e with
    | .AsyncRcv _ =>
      match epollNew with
      | .error err => .ready (.error err)
      | .ok _epoll =>
        match epollAdd UDT_EPOLL_IN with
        | .error err => .ready (.error err)
        | .ok _ => .pending ⟨UDT_EPOLL_IN, f.socket.id, backgroundWake⟩
    | e => .ready (.error e)

/-- `ConnectFuture` from src/lib.rs. -/
structure ConnectFuture where
  socket : UdtSocket
deriving DecidableEq, Repr

/-- Outcome of one `ConnectFuture::poll` step: a terminal resolution, or
`Poll::Pending` after spawning a timer thread that sleeps `delayMillis`
milliseconds and then wakes the task unconditionally. -/
inductive ConnectPollOutcome
  | ready : Except UdtError UdtAsyncStream → ConnectPollOutcome
  | pendingTimer : (delayMillis : Nat) → ConnectPollOutcome
deriving Repr

/-- `impl Future for ConnectFuture` poll (src/lib.rs): dispatch on the status
reported by `self.socket.get_state()`. -/
def ConnectFuture.poll (f : ConnectFuture) (state : UdtStatus) :
    ConnectPollOutcome :=
  match state with
  | .Connecting => .pendingTimer 500
  | .Connected => .ready (.ok ⟨f.socket⟩)
  | .Broken => .ready (.error (.ConnLost "connection broken"))
  | .Init => .ready (.error (.UnboundSock "socket not bound"))
  | .Opened => .ready (.error (.InvOp "already connected"))
  | .Listening => .ready (.error (.InvOp "socket is listening"))
  | .Closing => .ready (.error (.InvSock "socket is being closed"))
  | .Closed => .ready (.error (.InvSock "socket already closed"))
  | .NonExist => .ready (.error (.InvSock "socket do not exist"))

/-- Repeatedly poll a `ConnectFuture` against a sequence of observed statuses,
counting suspensions; returns the number of suspensions that happened before
resolution together with the resolution value, or `none` if every observed
status left the future pending. -/
def ConnectFuture.drive (f : ConnectFuture) :
    List UdtStatus → Nat → Option (Nat × Except UdtError UdtAsyncStream)
  | [], _ => none
  | s :: rest, n =>
    match f.poll s with
    | .ready r => some (n, r)
    | .pendingTimer _ => f.drive rest (n + 1)

/-- Repeatedly poll `poll_flush` against a sequence of observed pending-send
byte counts; returns the index of the first poll that resolved together with
its resolution, or `none` if every poll suspended. -/
def flushDrive (socket : UdtSocket) (epollNew : Except UdtError Epoll)
    (epollAdd : EPOLLOpt → Except UdtError Unit) :
    List Int → Nat → Option (Nat × Except IoError Unit)
  | [], _ => none
  | c :: rest, n =>
    match UdtAsyncStream.poll_flush socket (.ok c) epollNew epollAdd with
    | .ready r => some (n, r)
    | .pending _ => flushDrive socket epollNew epollAdd rest (n + 1)

/-! Trace model for the `Epoll` registration counters: a ghost list of the
sockets currently registered (with the interest each was added under) is
carried alongside the counters, and sequences of successful `add`/`remove`
calls are replayed against both.  `remove` looks the event up from the ghost
registration, matching `socket.get_event()` reporting the socket's registered
interest. -/

/-- One successful call in an `Epoll` registration history. -/
inductive EpollOp
  | add (socketId : Int) (event : EPOLLOpt)
  | remove (socketId : Int)

/-- An `Epoll` together with the ghost list of currently registered sockets
and the interest each was registered with. -/
structure EpollModel where
  epoll : Epoll
  regs : List (Int × EPOLLOpt)

/-- The interest a currently registered socket was registered with. -/
def lookupEvent (regs : List (Int × EPOLLOpt)) (sid : Int) : Option EPOLLOpt :=
  match regs.find? (fun p => p.1 == sid) with
  | some p => some p.2
  | none => none

/-- Replay one successful call: `add` performs the success-branch counter
increments of `Epoll::add` and records the registration; `remove` performs the
success-branch counter decrements of `Epoll::remove` with `get_event`
reporting the registered interest, and drops the registration. -/
def applyOp (m : EpollModel) : EpollOp → EpollModel
  | .add sid ev => ⟨m.epoll.addSuccess ev, (sid, ev) :: m.regs⟩
  | .remove sid =>
    match lookupEvent m.regs sid with
    | some ev => ⟨m.epoll.removeSuccess ev, m.regs.filter (fun p => p.1 != sid)⟩
    | none => m

/-- Replay a sequence of successful calls. -/
def runOps (m : EpollModel) : List EpollOp → EpollModel
  | [] => m
  | op :: rest => runOps (applyOp m op) rest

/-- Number of currently registered sockets whose interest includes
read-readiness. -/
def regCountIn (regs : List (Int × EPOLLOpt)) : Nat :=
  (regs.filter (fun p => p.2 &&& UDT_EPOLL_IN == UDT_EPOLL_IN)).length

/-- Number of currently registered sockets whose interest includes
write-readiness. -/
def regCountOut (regs : List (Int × EPOLLOpt)) : Nat :=
  (regs.filter (fun p => p.2 &&& UDT_EPOLL_OUT == UDT_EPOLL_OUT)).length

/-- Well-formed call history relative to the current registrations: every
`add` registers a socket not currently registered, every `remove` targets a
currently registered socket. -/
def wfOps (regs : List (Int × EPOLLOpt)) : List EpollOp → Bool
  | [] => true
  | .add sid ev :: rest =>
    regs.all (fun p => p.1 != sid) && wfOps ((sid, ev) :: regs) rest
  | .remove sid :: rest =>
    regs.any (fun p => p.1 == sid) &&
      wfOps (regs.filter (fun p => p.1 != sid)) rest

/-- The counter invariant from the spec: each counter equals the number of
sockets currently registered for that interest. -/
def countersMatch (m : EpollModel) : Prop :=
  m.epoll.num_rd_sock = regCountIn m.regs ∧
    m.epoll.num_wr_sock = regCountOut m.regs

/-- C3: `ConnectFuture::poll` maps `Connecting` to `Poll::Pending` with a
500 ms timer wake, `Connected` to success with the socket, `Broken` to a
connection-lost error, and each of the six remaining statuses to its own
immediate terminal error; consequently the status sequence
`[Connecting, Connecting, Connected]` resolves success only after two
suspensions, and status `Opened` at the first poll resolves immediately with a
usage error. -/
theorem connectPoll_status_dispatch (f : ConnectFuture) :
    f.poll .Connecting = .pendingTimer 500 ∧
    f.poll .Connected = .ready (.ok ⟨f.socket⟩) ∧
    f.poll .Broken = .ready (.error (.ConnLost "connection broken")) ∧
    f.poll .Init = .ready (.error (.UnboundSock "socket not bound")) ∧
    f.poll .Opened = .ready (.error (.InvOp "already connected")) ∧
    f.poll .Listening = .ready (.error (.InvOp "socket is listening")) ∧
    f.poll .Closing = .ready (.error (.InvSock "socket is being closed")) ∧
    f.poll .Closed = .ready (.error (.InvSock "socket already closed")) ∧
    f.poll .NonExist = .ready (.error (.InvSock "socket do not exist")) ∧
    f.drive [.Connecting, .Connecting, .Connected] 0
      = some (2, .ok ⟨f.socket⟩) ∧
    f.drive [.Opened] 0 = some (0, .error (.InvOp "already connected")) :=
  ⟨rfl, rfl, rfl, rfl, rfl, rfl, rfl, rfl, rfl, rfl, rfl⟩

/-- C9: whenever a wrapper operation observes the native error return value
but the thread-local last-error code is 0 (`Success`), `get_error` returns
`Ok` with the caller-supplied fallback: `recv` and `send` return `Ok(0)` and
`local_addr` returns the unspecified address `0.0.0.0:0`. -/
theorem success_code_yields_fallback (d : String) :
    UdtError.fromCode 0 d = some (.Success d) ∧
    (∀ n : Nat, get_error (UdtError.Success d) n = .ok n) ∧
    UdtSocket.recv UDT_ERROR (.Success d) = .ok 0 ∧
    UdtSocket.send UDT_ERROR (.Success d) = .ok 0 ∧
    (∀ a, UdtSocket.local_addr UDT_ERROR (.Success d) a
      = .ok addrUnspecified) :=
  ⟨rfl, fun _ => rfl, rfl, rfl, fun _ => rfl⟩

/-- C10: `UdtSocket::connect` attempts at most the first resolved address —
its result does not depend on the remaining addresses nor on the native
outcome at any other address; the first attempt yields `Ok(())` on native
success and the thread-local error on native failure; failed or empty address
resolution yields `ConnFail("invalid address")`. -/
theorem connect_first_addr_only (a : SocketAddr) (rest : List SocketAddr)
    (native native2 : SocketAddr → Int) (lastError : UdtError) :
    UdtSocket.connect (some (a :: rest)) native lastError
      = UdtSocket.connect (some [a]) native lastError ∧
    (native a = native2 a →
      UdtSocket.connect (some (a :: rest)) native lastError
        = UdtSocket.connect (some (a :: rest)) native2 lastError) ∧
    (native a ≠ UDT_ERROR →
      UdtSocket.connect (some (a :: rest)) native lastError = .ok ()) ∧
    (native a = UDT_ERROR →
      UdtSocket.connect (some (a :: rest)) native lastError
        = get_error lastError ()) ∧
    UdtSocket.connect (some []) native lastError
      = .error (.ConnFail "invalid address") ∧
    UdtSocket.connect none native lastError
      = .error (.ConnFail "invalid address") := by
  refine ⟨rfl, ?_, ?_, ?_, rfl, rfl⟩
  · intro h
    simp [UdtSocket.connect, UdtSocket.connectLoop, h]
  · intro h
    simp [UdtSocket.connect, UdtSocket.connectLoop, beq_iff_eq, h]
  · intro h
    simp [UdtSocket.connect, UdtSocket.connectLoop, beq_iff_eq, h]

/-- C10 witness: a connect on one address with native success returns
`Ok(())`. -/
theorem connect_first_addr_only_witness :
    UdtSocket.connect (some [addrUnspecified]) (fun _ => 0) (.Success "")
      = .ok () :=
  (connect_first_addr_only addrUnspecified [] (fun _ => 0) (fun _ => 0)
    (.Success "")).2.2.1 (by decide)

/-- C6: on a successful non-blocking accept, `AcceptFuture::poll` sets both
blocking flags of the newly accepted socket to non-blocking (`false`) — its
outcome depends on the two configuration oracles only at the argument `false`
— resolving with the first configuration error if one occurs and otherwise
with the new async stream and the peer address; on would-block it suspends on
the Read interest of the listening socket. -/
theorem acceptPoll_spec (f : AcceptFuture) (s : UdtSocket) (addr : SocketAddr)
    (setRcvsyn setSndsyn setR2 setS2 : Bool → Except UdtError Unit)
    (epollNew : Except UdtError Epoll) (ep : Epoll)
    (epollAdd : EPOLLOpt → Except UdtError Unit) (e : UdtError) (m : String) :
    (setRcvsyn false = .ok () → setSndsyn false = .ok () →
      f.poll (.ok (s, addr)) setRcvsyn setSndsyn epollNew epollAdd
        = .ready (.ok (⟨s⟩, addr))) ∧
    (setRcvsyn false = .error e →
      f.poll (.ok (s, addr)) setRcvsyn setSndsyn epollNew epollAdd
        = .ready (.error e)) ∧
    (setRcvsyn false = .ok () → setSndsyn false = .error e →
      f.poll (.ok (s, addr)) setRcvsyn setSndsyn epollNew epollAdd
        = .ready (.error e)) ∧
    (setRcvsyn false = setR2 false → setSndsyn false = setS2 false →
      f.poll (.ok (s, addr)) setRcvsyn setSndsyn epollNew epollAdd
        = f.poll (.ok (s, addr)) setR2 setS2 epollNew epollAdd) ∧
    (epollNew = .ok ep → epollAdd UDT_EPOLL_IN = .ok () →
      f.poll (.error (.AsyncRcv m)) setRcvsyn setSndsyn epollNew epollAdd
        = .pending ⟨UDT_EPOLL_IN, f.socket.id, backgroundWake⟩) := by
  refine ⟨?_, ?_, ?_, ?_, ?_⟩
  · intro h1 h2
    simp [AcceptFuture.poll, h1, h2]
  · intro h1
    simp [AcceptFuture.poll, h1]
  · intro h1 h2
    simp [AcceptFuture.poll, h1, h2]
  · intro h1 h2
    simp [AcceptFuture.poll, h1, h2]
  · intro h1 h2
    simp [AcceptFuture.poll, h1, h2]

/-- C6 witness: with both configuration calls succeeding, an accepted socket
resolves as a stream with the peer address; with would-block and a working
multiplexer, the poll suspends on Read interest of the listening socket. -/
theorem acceptPoll_spec_witness :
    AcceptFuture.poll ⟨⟨9⟩⟩ (.ok (⟨10⟩, addrUnspecified)) (fun _ => .ok ())
        (fun _ => .ok ()) (.ok ⟨1, 0, 0⟩) (fun _ => .ok ())
      = .ready (.ok (⟨⟨10⟩⟩, addrUnspecified)) ∧
    AcceptFuture.poll ⟨⟨9⟩⟩ (.error (.AsyncRcv "")) (fun _ => .ok ())
        (fun _ => .ok ()) (.ok ⟨1, 0, 0⟩) (fun _ => .ok ())
      = .pending ⟨UDT_EPOLL_IN, 9, backgroundWake⟩ :=
  ⟨(acceptPoll_spec ⟨⟨9⟩⟩ ⟨10⟩ addrUnspecified (fun _ => .ok ())
      (fun _ => .ok ()) (fun _ => .ok ()) (fun _ => .ok ()) (.ok ⟨1, 0, 0⟩)
      ⟨1, 0, 0⟩ (fun _ => .ok ()) (.Success "") "").1 rfl rfl,
   (acceptPoll_spec ⟨⟨9⟩⟩ ⟨10⟩ addrUnspecified (fun _ => .ok ())
      (fun _ => .ok ()) (fun _ => .ok ()) (fun _ => .ok ()) (.ok ⟨1, 0, 0⟩)
      ⟨1, 0, 0⟩ (fun _ => .ok ()) (.Success "") "").2.2.2.2 rfl rfl⟩

/-- C4: `poll_write` resolves with the byte count on send success; on the
would-block signal it resolves `Ok(0)` when the pending-send count is zero and
suspends on Write interest when it is nonzero; any other send error, or an
error querying the pending count, resolves immediately with that error. -/
theorem poll_write_spec (socket : UdtSocket) (n : Nat) (m : String)
    (bytes : Int) (e : UdtError) (ep : Epoll)
    (epollNew : Except UdtError Epoll)
    (epollAdd : EPOLLOpt → Except UdtError Unit)
    (snddata : Except UdtError Int) :
    UdtAsyncStream.poll_write socket (.ok n) snddata epollNew epollAdd
      = .ready (.ok n) ∧
    UdtAsyncStream.poll_write socket (.error (.AsyncSnd m)) (.ok 0) epollNew
        epollAdd
      = .ready (.ok 0) ∧
    (bytes ≠ 0 → epollNew = .ok ep → epollAdd UDT_EPOLL_OUT = .ok () →
      UdtAsyncStream.poll_write socket (.error (.AsyncSnd m)) (.ok bytes)
          epollNew epollAdd
        = .pending ⟨UDT_EPOLL_OUT, socket.id, backgroundWake⟩) ∧
    (e.isAsyncSnd = false →
      UdtAsyncStream.poll_write socket (.error e) snddata epollNew epollAdd
        = .ready (.error e.toIoError)) ∧
    UdtAsyncStream.poll_write socket (.error (.AsyncSnd m)) (.error e)
        epollNew epollAdd
      = .ready (.error e.toIoError) := by
  refine ⟨rfl, rfl, ?_, ?_, rfl⟩
  · intro hb hnew hadd
    simp [UdtAsyncStream.poll_write, hnew, hadd, beq_iff_eq, hb]
  · intro he
    cases e <;> simp [UdtError.isAsyncSnd] at he <;> rfl

/-- C4 witness: with a nonzero pending count and a working multiplexer, a
would-blocked write suspends on Write interest. -/
theorem poll_write_spec_witness :
    UdtAsyncStream.poll_write ⟨4⟩ (.error (.AsyncSnd "")) (.ok 7)
        (.ok ⟨1, 0, 0⟩) (fun _ => .ok ())
      = .pending ⟨UDT_EPOLL_OUT, 4, backgroundWake⟩ ∧
    UdtAsyncStream.poll_write ⟨4⟩ (.error (.ConnLost "gone")) (.ok 7)
        (.ok ⟨1, 0, 0⟩) (fun _ => .ok ())
      = .ready (.error (UdtError.ConnLost "gone").toIoError) :=
  ⟨(poll_write_spec ⟨4⟩ 0 "" 7 (.ConnLost "gone") ⟨1, 0, 0⟩ (.ok ⟨1, 0, 0⟩)
      (fun _ => .ok ()) (.ok 7)).2.2.1 (by decide) rfl rfl,
   (poll_write_spec ⟨4⟩ 0 "" 7 (.ConnLost "gone") ⟨1, 0, 0⟩ (.ok ⟨1, 0, 0⟩)
      (fun _ => .ok ()) (.ok 7)).2.2.2.1 rfl⟩

/-- C2: in every would-block branch of the read, write, flush, close and
accept polls, a failure creating the `Epoll` multiplexer or registering the
socket with it makes the poll resolve immediately (`Poll::Ready`) with that
error — it never returns `Poll::Pending`, so the suspension is never
established. -/
theorem setup_failure_resolves_immediately (socket : UdtSocket)
    (f : AcceptFuture) (m : String) (e : UdtError) (ep : Epoll)
    (epollAdd : EPOLLOpt → Except UdtError Unit) (bytes : Int)
    (closeResult : Except UdtError Unit)
    (setRcvsyn setSndsyn : Bool → Except UdtError Unit) :
    UdtAsyncStream.poll_read socket (.error (.AsyncRcv m)) (.error e) epollAdd
      = .ready (.error e.toIoError) ∧
    (epollAdd UDT_EPOLL_IN = .error e →
      UdtAsyncStream.poll_read socket (.error (.AsyncRcv m)) (.ok ep) epollAdd
        = .ready (.error e.toIoError)) ∧
    (bytes ≠ 0 →
      UdtAsyncStream.poll_write socket (.error (.AsyncSnd m)) (.ok bytes)
          (.error e) epollAdd
        = .ready (.error e.toIoError)) ∧
    (bytes ≠ 0 → epollAdd UDT_EPOLL_OUT = .error e →
      UdtAsyncStream.poll_write socket (.error (.AsyncSnd m)) (.ok bytes)
          (.ok ep) epollAdd
        = .ready (.error e.toIoError)) ∧
    (bytes ≠ 0 →
      UdtAsyncStream.poll_flush socket (.ok bytes) (.error e) epollAdd
        = .ready (.error e.toIoError)) ∧
    (bytes ≠ 0 → epollAdd UDT_EPOLL_OUT = .error e →
      UdtAsyncStream.poll_flush socket (.ok bytes) (.ok ep) epollAdd
        = .ready (.error e.toIoError)) ∧
    (bytes ≠ 0 →
      UdtAsyncStream.poll_close socket (.ok bytes) (.error e) epollAdd
          closeResult
        = .ready (.error e.toIoError)) ∧
    (bytes ≠ 0 → epollAdd UDT_EPOLL_OUT = .error e →
      UdtAsyncStream.poll_close socket (.ok bytes) (.ok ep) epollAdd
          closeResult
        = .ready (.error e.toIoError)) ∧
    f.poll (.error (.AsyncRcv m)) setRcvsyn setSndsyn (.error e) epollAdd
      = .ready (.error e) ∧
    (epollAdd UDT_EPOLL_IN = .error e →
      f.poll (.error (.AsyncRcv m)) setRcvsyn setSndsyn (.ok ep) epollAdd
        = .ready (.error e)) := by
  refine ⟨rfl, ?_, ?_, ?_, ?_, ?_, ?_, ?_, rfl, ?_⟩
  · intro hadd
    simp [UdtAsyncStream.poll_read, hadd]
  · intro hb
    simp [UdtAsyncStream.poll_write, beq_iff_eq, hb]
  · intro hb hadd
    simp [UdtAsyncStream.poll_write, beq_iff_eq, hb, hadd]
  · intro hb
    simp [UdtAsyncStream.poll_flush, beq_iff_eq, hb]
  · intro hb hadd
    simp [UdtAsyncStream.poll_flush, beq_iff_eq, hb, hadd]
  · intro hb
    simp [UdtAsyncStream.poll_close, beq_iff_eq, hb]
  · intro hb hadd
    simp [UdtAsyncStream.poll_close, beq_iff_eq, hb, hadd]
  · intro hadd
    simp [AcceptFuture.poll, hadd]

/-- C2 witness: a would-blocked read whose multiplexer creation fails resolves
immediately with the resource error. -/
theorem setup_failure_resolves_immediately_witness :
    UdtAsyncStream.poll_read ⟨2⟩ (.error (.AsyncRcv ""))
        (.error (.Resource "exhausted")) (fun _ => .error (.Resource "exhausted"))
      = .ready (.error (UdtError.Resource "exhausted").toIoError) ∧
    UdtAsyncStream.poll_flush ⟨2⟩ (.ok 5) (.ok ⟨1, 0, 0⟩)
        (fun _ => .error (.InvSock "closed"))
      = .ready (.error (UdtError.InvSock "closed").toIoError) :=
  ⟨(setup_failure_resolves_immediately ⟨2⟩ ⟨⟨2⟩⟩ "" (.Resource "exhausted")
      ⟨1, 0, 0⟩ (fun _ => .error (.Resource "exhausted")) 5 (.ok ())
      (fun _ => .ok ()) (fun _ => .ok ())).1,
   (setup_failure_resolves_immediately ⟨2⟩ ⟨⟨2⟩⟩ "" (.InvSock "closed")
      ⟨1, 0, 0⟩ (fun _ => .error (.InvSock "closed")) 5 (.ok ())
      (fun _ => .ok ()) (fun _ => .ok ())).2.2.2.2.2.1 (by decide) rfl⟩

/-- With a working multiplexer, `poll_flush` suspends at every nonzero
observed pending count and resolves `Ok` at the first observed zero. -/
theorem flushDrive_resolves_at_first_zero (socket : UdtSocket) (ep : Epoll)
    (epollNew : Except UdtError Epoll)
    (epollAdd : EPOLLOpt → Except UdtError Unit)
    (hnew : epollNew = .ok ep) (hadd : epollAdd UDT_EPOLL_OUT = .ok ()) :
    ∀ (counts : List Int), (∀ c ∈ counts, c ≠ 0) → ∀ (n : Nat),
      flushDrive socket epollNew epollAdd (counts ++ [0]) n
        = some (n + counts.length, .ok ()) := by
  intro counts
  induction counts with
  | nil =>
    intro _ n
    simp [flushDrive, UdtAsyncStream.poll_flush]
  | cons c rest ih =>
    intro hpos n
    have hc : c ≠ 0 := hpos c (List.mem_cons_self c rest)
    have hrest : ∀ x ∈ rest, x ≠ 0 := fun x hx =>
      hpos x (List.mem_cons_of_mem c hx)
    have hpend : UdtAsyncStream.poll_flush socket (.ok c) epollNew epollAdd
        = .pending ⟨UDT_EPOLL_OUT, socket.id, backgroundWake⟩ := by
      simp [UdtAsyncStream.poll_flush, hnew, hadd, beq_iff_eq, hc]
    calc flushDrive socket epollNew epollAdd ((c :: rest) ++ [0]) n
        = flushDrive socket epollNew epollAdd (rest ++ [0]) (n + 1) := by
          simp [flushDrive, hpend]
      _ = some (n + 1 + rest.length, .ok ()) := ih hrest (n + 1)
      _ = some (n + (c :: rest).length, .ok ()) := by
          simp [List.length_cons]
          omega

/-- C5: while the pending-send count is observed nonzero, `poll_flush` and
`poll_close` return `Poll::Pending` suspended on Write interest (for every
poll in an arbitrary sequence of such observations); at the first poll where
the count is observed as zero, flush resolves `Ok` and close invokes the
socket's close operation and resolves with its result. -/
theorem flush_close_drain (socket : UdtSocket) (bytes : Int)
    (counts : List Int) (ep : Epoll) (epollNew : Except UdtError Epoll)
    (epollAdd : EPOLLOpt → Except UdtError Unit)
    (closeResult : Except UdtError Unit)
    (hnew : epollNew = .ok ep) (hadd : epollAdd UDT_EPOLL_OUT = .ok ()) :
    (bytes ≠ 0 →
      UdtAsyncStream.poll_flush socket (.ok bytes) epollNew epollAdd
        = .pending ⟨UDT_EPOLL_OUT, socket.id, backgroundWake⟩ ∧
      UdtAsyncStream.poll_close socket (.ok bytes) epollNew epollAdd
          closeResult
        = .pending ⟨UDT_EPOLL_OUT, socket.id, backgroundWake⟩) ∧
    UdtAsyncStream.poll_flush socket (.ok 0) epollNew epollAdd
      = .ready (.ok ()) ∧
    UdtAsyncStream.poll_close socket (.ok 0) epollNew epollAdd closeResult
      = .ready (UdtAsyncStream.closeResultToIo closeResult) ∧
    ((∀ c ∈ counts, c ≠ 0) →
      (∀ c ∈ counts,
        (UdtAsyncStream.poll_flush socket (.ok c) epollNew
          epollAdd).isPending = true ∧
        (UdtAsyncStream.poll_close socket (.ok c) epollNew epollAdd
          closeResult).isPending = true) ∧
      flushDrive socket epollNew epollAdd (counts ++ [0]) 0
        = some (counts.length, .ok ())) := by
  refine ⟨?_, rfl, rfl, ?_⟩
  · intro hb
    constructor
    · simp [UdtAsyncStream.poll_flush, hnew, hadd, beq_iff_eq, hb]
    · simp [UdtAsyncStream.poll_close, hnew, hadd, beq_iff_eq, hb]
  · intro hpos
    constructor
    · intro c hc
      have hcz : c ≠ 0 := hpos c hc
      constructor
      · simp [UdtAsyncStream.poll_flush, hnew, hadd, beq_iff_eq, hcz,
          PollOutcome.isPending]
      · simp [UdtAsyncStream.poll_close, hnew, hadd, beq_iff_eq, hcz,
          PollOutcome.isPending]
    · have h := flushDrive_resolves_at_first_zero socket ep epollNew epollAdd
        hnew hadd counts hpos 0
      simpa using h

/-- C5 witness: over observed counts `[3, 2]` then `0`, flush suspends twice
and resolves `Ok` on the third poll; a nonzero count leaves close pending and
a zero count makes close resolve with the close call's result. -/
theorem flush_close_drain_witness :
    UdtAsyncStream.poll_flush ⟨6⟩ (.ok 3) (.ok ⟨1, 0, 0⟩) (fun _ => .ok ())
      = .pending ⟨UDT_EPOLL_OUT, 6, backgroundWake⟩ ∧
    UdtAsyncStream.poll_close ⟨6⟩ (.ok 0) (.ok ⟨1, 0, 0⟩) (fun _ => .ok ())
        (.ok ())
      = .ready (UdtAsyncStream.closeResultToIo (.ok ())) ∧
    flushDrive ⟨6⟩ (.ok ⟨1, 0, 0⟩) (fun _ => .ok ()) ([3, 2] ++ [0]) 0
      = some (2, .ok ()) := by
  have h := flush_close_drain ⟨6⟩ 3 [3, 2] ⟨1, 0, 0⟩ (.ok ⟨1, 0, 0⟩)
    (fun _ => .ok ()) (.ok ()) rfl rfl
  exact ⟨(h.1 (by decide)).1, h.2.2.1,
    (h.2.2.2 (by intro c hc; fin_cases hc <;> decide)).2⟩

/-- C1 counterexample: the suspension launched by `poll_read` carries
`backgroundWake` as the spawned unit's wake behaviour, and `backgroundWake`
does NOT invoke the wake callback when the background wait returns with an
error — refuting the claim that the wake is invoked unconditionally whether
the wait returns successfully or with an error. -/
theorem background_wake_not_unconditional :
    UdtAsyncStream.poll_read ⟨3⟩ (.error (.AsyncRcv "recv would block"))
        (.ok ⟨1, 0, 0⟩) (fun _ => .ok ())
      = .pending ⟨UDT_EPOLL_IN, 3, backgroundWake⟩ ∧
    backgroundWake (.error (.Timeout "wait failed")) = false :=
  ⟨rfl, rfl⟩

/-- C1 (amended): every suspension launched by `poll_read`, `poll_write`,
`poll_flush`, `poll_close` or `AcceptFuture::poll` spawns a background unit
whose wake behaviour is `backgroundWake`: it invokes the suspended task's wake
callback exactly when the background wait call returns successfully, and
skips the wake when the wait returns with an error. -/
theorem background_wake_iff_wait_ok (socket : UdtSocket) (f : AcceptFuture)
    (m : String) (ep : Epoll) (epollNew : Except UdtError Epoll)
    (epollAdd : EPOLLOpt → Except UdtError Unit) (bytes : Int)
    (closeResult : Except UdtError Unit)
    (setRcvsyn setSndsyn : Bool → Except UdtError Unit)
    (hnew : epollNew = .ok ep)
    (haddIn : epollAdd UDT_EPOLL_IN = .ok ())
    (haddOut : epollAdd UDT_EPOLL_OUT = .ok ())
    (hb : bytes ≠ 0) :
    UdtAsyncStream.poll_read socket (.error (.AsyncRcv m)) epollNew epollAdd
      = .pending ⟨UDT_EPOLL_IN, socket.id, backgroundWake⟩ ∧
    UdtAsyncStream.poll_write socket (.error (.AsyncSnd m)) (.ok bytes)
        epollNew epollAdd
      = .pending ⟨UDT_EPOLL_OUT, socket.id, backgroundWake⟩ ∧
    UdtAsyncStream.poll_flush socket (.ok bytes) epollNew epollAdd
      = .pending ⟨UDT_EPOLL_OUT, socket.id, backgroundWake⟩ ∧
    UdtAsyncStream.poll_close socket (.ok bytes) epollNew epollAdd closeResult
      = .pending ⟨UDT_EPOLL_OUT, socket.id, backgroundWake⟩ ∧
    f.poll (.error (.AsyncRcv m)) setRcvsyn setSndsyn epollNew epollAdd
      = .pending ⟨UDT_EPOLL_IN, f.socket.id, backgroundWake⟩ ∧
    (∀ r, backgroundWake (.ok r) = true) ∧
    (∀ err, backgroundWake (.error err) = false) := by
  refine ⟨?_, ?_, ?_, ?_, ?_, fun _ => rfl, fun _ => rfl⟩
  · simp [UdtAsyncStream.poll_read, hnew, haddIn]
  · simp [UdtAsyncStream.poll_write, hnew, haddOut, beq_iff_eq, hb]
  · simp [UdtAsyncStream.poll_flush, hnew, haddOut, beq_iff_eq, hb]
  · simp [UdtAsyncStream.poll_close, hnew, haddOut, beq_iff_eq, hb]
  · simp [AcceptFuture.poll, hnew, haddIn]

/-- C1 witness: a would-blocked read suspends with `backgroundWake` as its
wake behaviour, which fires on a successful wait. -/
theorem background_wake_iff_wait_ok_witness :
    UdtAsyncStream.poll_read ⟨3⟩ (.error (.AsyncRcv "")) (.ok ⟨1, 0, 0⟩)
        (fun _ => .ok ())
      = .pending ⟨UDT_EPOLL_IN, 3, backgroundWake⟩ ∧
    backgroundWake (.ok ([3], [])) = true :=
  ⟨(background_wake_iff_wait_ok ⟨3⟩ ⟨⟨3⟩⟩ "" ⟨1, 0, 0⟩ (.ok ⟨1, 0, 0⟩)
      (fun _ => .ok ()) 1 (.ok ()) (fun _ => .ok ()) (fun _ => .ok ()) rfl rfl
      rfl (by decide)).1,
   (background_wake_iff_wait_ok ⟨3⟩ ⟨⟨3⟩⟩ "" ⟨1, 0, 0⟩ (.ok ⟨1, 0, 0⟩)
      (fun _ => .ok ()) 1 (.ok ()) (fun _ => .ok ()) (fun _ => .ok ()) rfl rfl
      rfl (by decide)).2.2.2.2.2.1 ([3], [])⟩

/-- The native wait call performed by `Epoll::wait`: the oracle applied to the
two freshly allocated result buffers, each sized from its registration
counter. -/
def Epoll.waitNativeCall (e : Epoll) (timeout : Int)
    (native : List Int → List Int → Int → Epoll.NativeWaitResult) :
    Epoll.NativeWaitResult :=
  native (List.replicate e.num_rd_sock UDT_INVALID_SOCK)
    (List.replicate e.num_wr_sock UDT_INVALID_SOCK) timeout

/-- When the thread-local error state is not `Success`, `get_error` returns it
as the error. -/
theorem get_error_not_success {α : Type} (le : UdtError) (a : α)
    (h : le.isSuccess = false) : get_error le a = .error le := by
  cases le <;> first | rfl | simp [UdtError.isSuccess] at h

/-- C8 counterexample: a native wait failure (`udt_epoll_wait2` returning
`UDT_ERROR`) with the thread-local error state at `Success` (code 0) makes
`Epoll::wait` return `Ok` with two empty vectors rather than an error —
refuting the claim that on native failure `wait` returns an error. -/
theorem epoll_wait_error_swallowed :
    Epoll.wait ⟨7, 2, 3⟩ (-1)
        (fun _ _ _ => ⟨UDT_ERROR, [], 0, [], 0, .Success "no error"⟩)
      = .ok ([], []) :=
  rfl

/-- C8 (amended): `Epoll::wait` sizes the read-ready buffer from
`num_rd_sock` and the write-ready buffer from `num_wr_sock` (its outcome
depends on the native oracle only at buffers of exactly those sizes); on
native success each returned vector is truncated to exactly the signalled
count the native wait reported; on native failure it returns the thread-local
error, except when the thread-local state is `Success` (code 0), in which
case it returns `Ok` with two empty vectors. -/
theorem epoll_wait_spec (e : Epoll) (t : Int)
    (native native2 : List Int → List Int → Int → Epoll.NativeWaitResult)
    (d : String) :
    (Epoll.waitNativeCall e t native = Epoll.waitNativeCall e t native2 →
      e.wait t native = e.wait t native2) ∧
    ((Epoll.waitNativeCall e t native).result ≠ UDT_ERROR →
      e.wait t native
        = .ok
            ((Epoll.waitNativeCall e t native).rdOut.take
              (intAsUsize (Epoll.waitNativeCall e t native).rdLen),
            (Epoll.waitNativeCall e t native).wrOut.take
              (intAsUsize (Epoll.waitNativeCall e t native).wrLen))) ∧
    (intAsUsize (Epoll.waitNativeCall e t native).rdLen
        ≤ (Epoll.waitNativeCall e t native).rdOut.length →
      ((Epoll.waitNativeCall e t native).rdOut.take
        (intAsUsize (Epoll.waitNativeCall e t native).rdLen)).length
        = intAsUsize (Epoll.waitNativeCall e t native).rdLen) ∧
    (intAsUsize (Epoll.waitNativeCall e t native).wrLen
        ≤ (Epoll.waitNativeCall e t native).wrOut.length →
      ((Epoll.waitNativeCall e t native).wrOut.take
        (intAsUsize (Epoll.waitNativeCall e t native).wrLen)).length
        = intAsUsize (Epoll.waitNativeCall e t native).wrLen) ∧
    ((Epoll.waitNativeCall e t native).result = UDT_ERROR →
      (Epoll.waitNativeCall e t native).lastError.isSuccess = false →
      e.wait t native
        = .error (Epoll.waitNativeCall e t native).lastError) ∧
    ((Epoll.waitNativeCall e t native).result = UDT_ERROR →
      (Epoll.waitNativeCall e t native).lastError = .Success d →
      e.wait t native = .ok ([], [])) := by
  refine ⟨?_, ?_, ?_, ?_, ?_, ?_⟩
  · intro h
    simp only [Epoll.wait]
    simp only [Epoll.waitNativeCall] at h
    rw [h]
  · intro h
    simp only [Epoll.waitNativeCall] at h
    simp [Epoll.wait, Epoll.waitNativeCall, beq_iff_eq, h]
  · intro h
    rw [List.length_take]
    exact Nat.min_eq_left h
  · intro h
    rw [List.length_take]
    exact Nat.min_eq_left h
  · intro h1 h2
    simp only [Epoll.waitNativeCall] at h1 h2 ⊢
    simp [Epoll.wait, beq_iff_eq, h1]
    exact get_error_not_success _ _ h2
  · intro h1 h2
    simp only [Epoll.waitNativeCall] at h1 h2
    simp [Epoll.wait, beq_iff_eq, h1, h2, get_error]

/-- C8 witness: a successful wait on an `Epoll` with two read and one write
registrations returns the filled buffers truncated to the reported counts. -/
theorem epoll_wait_spec_witness :
    Epoll.wait ⟨7, 2, 1⟩ (-1)
        (fun _ _ _ => ⟨0, [5, 5], 1, [6], 0, .Success ""⟩)
      = .ok ([5], []) :=
  (epoll_wait_spec ⟨7, 2, 1⟩ (-1)
    (fun _ _ _ => ⟨0, [5, 5], 1, [6], 0, .Success ""⟩)
    (fun _ _ _ => ⟨0, [5, 5], 1, [6], 0, .Success ""⟩) "").2.1 (by decide)

/-- Filtering out an identifier that does not occur leaves the registration
list unchanged. -/
theorem filter_ne_of_not_mem (sid : Int) (l : List (Int × EPOLLOpt))
    (h : sid ∉ l.map Prod.fst) : l.filter (fun q => q.1 != sid) = l := by
  apply List.filter_eq_self.mpr
  intro a ha
  simp only [bne_iff_ne, ne_eq, decide_eq_true_eq]
  intro heq
  exact h (heq ▸ List.mem_map_of_mem Prod.fst ha)

/-- Removing the unique registration of `sid` splits any filtered count into
the count over the remaining registrations plus the removed pair's own
contribution. -/
theorem filter_length_split (P : Int × EPOLLOpt → Bool) :
    ∀ (regs : List (Int × EPOLLOpt)) (sid : Int) (p : Int × EPOLLOpt),
      (regs.map Prod.fst).Nodup →
      regs.find? (fun q => q.1 == sid) = some p →
      (regs.filter P).length
        = ((regs.filter (fun q => q.1 != sid)).filter P).length
            + (if P p then 1 else 0) := by
  intro regs
  induction regs with
  | nil =>
    intro sid p _ hf
    simp [List.find?] at hf
  | cons a rest ih =>
    intro sid p hnd hf
    rw [List.map_cons, List.nodup_cons] at hnd
    cases ha : a.1 == sid with
    | true =>
      have hfa : List.find? (fun q => q.1 == sid) (a :: rest) = some a := by
        simp [List.find?, ha]
      rw [hfa] at hf
      have hap : a = p := Option.some.inj hf
      have hsid : a.1 = sid := beq_iff_eq.mp ha
      have hnotin : sid ∉ rest.map Prod.fst := hsid ▸ hnd.1
      have h1 : (a :: rest).filter (fun q => q.1 != sid) = rest := by
        rw [List.filter_cons]
        simp only [bne, ha, Bool.not_true, Bool.false_eq_true, if_false]
        exact filter_ne_of_not_mem sid rest hnotin
      rw [h1, List.filter_cons, ← hap]
      cases hpa : P a <;> simp [hpa]
    | false =>
      have hfr : List.find? (fun q => q.1 == sid) rest = some p := by
        simpa [List.find?, ha] using hf
      have h1 : (a :: rest).filter (fun q => q.1 != sid)
          = a :: rest.filter (fun q => q.1 != sid) := by
        rw [List.filter_cons]
        simp [bne, ha]
      rw [h1]
      have hrec := ih sid p hnd.2 hfr
      rw [List.filter_cons, List.filter_cons]
      cases hpa : P a <;> simp [hpa, -List.filter_filter] <;> omega

/-- `Epoll.addSuccess` adds the read-interest contribution of the event to the
read counter. -/
theorem addSuccess_rd (e : Epoll) (ev : EPOLLOpt) :
    (e.addSuccess ev).num_rd_sock
      = e.num_rd_sock
          + (if ev &&& UDT_EPOLL_IN == UDT_EPOLL_IN then 1 else 0) := by
  by_cases h1 : (ev &&& UDT_EPOLL_IN == UDT_EPOLL_IN) = true <;>
    by_cases h2 : (ev &&& UDT_EPOLL_OUT == UDT_EPOLL_OUT) = true <;>
      simp [Epoll.addSuccess, h1, h2]

/-- `Epoll.addSuccess` adds the write-interest contribution of the event to
the write counter. -/
theorem addSuccess_wr (e : Epoll) (ev : EPOLLOpt) :
    (e.addSuccess ev).num_wr_sock
      = e.num_wr_sock
          + (if ev &&& UDT_EPOLL_OUT == UDT_EPOLL_OUT then 1 else 0) := by
  by_cases h1 : (ev &&& UDT_EPOLL_IN == UDT_EPOLL_IN) = true <;>
    by_cases h2 : (ev &&& UDT_EPOLL_OUT == UDT_EPOLL_OUT) = true <;>
      simp [Epoll.addSuccess, h1, h2]

/-- `Epoll.removeSuccess` subtracts the read-interest contribution of the
event from the read counter. -/
theorem removeSuccess_rd (e : Epoll) (ev : EPOLLOpt) :
    (e.removeSuccess ev).num_rd_sock
      = e.num_rd_sock
          - (if ev &&& UDT_EPOLL_IN == UDT_EPOLL_IN then 1 else 0) := by
  by_cases h1 : (ev &&& UDT_EPOLL_IN == UDT_EPOLL_IN) = true <;>
    by_cases h2 : (ev &&& UDT_EPOLL_OUT == UDT_EPOLL_OUT) = true <;>
      simp [Epoll.removeSuccess, h1, h2]

/-- `Epoll.removeSuccess` subtracts the write-interest contribution of the
event from the write counter. -/
theorem removeSuccess_wr (e : Epoll) (ev : EPOLLOpt) :
    (e.removeSuccess ev).num_wr_sock
      = e.num_wr_sock
          - (if ev &&& UDT_EPOLL_OUT == UDT_EPOLL_OUT then 1 else 0) := by
  by_cases h1 : (ev &&& UDT_EPOLL_IN == UDT_EPOLL_IN) = true <;>
    by_cases h2 : (ev &&& UDT_EPOLL_OUT == UDT_EPOLL_OUT) = true <;>
      simp [Epoll.removeSuccess, h1, h2]

/-- Registering one more socket adds its read-interest contribution to the
registered-for-read count. -/
theorem regCountIn_cons (sid : Int) (ev : EPOLLOpt)
    (regs : List (Int × EPOLLOpt)) :
    regCountIn ((sid, ev) :: regs)
      = regCountIn regs
          + (if ev &&& UDT_EPOLL_IN == UDT_EPOLL_IN then 1 else 0) := by
  by_cases h : (ev &&& UDT_EPOLL_IN == UDT_EPOLL_IN) = true <;>
    simp [regCountIn, List.filter_cons, h]

/-- Registering one more socket adds its write-interest contribution to the
registered-for-write count. -/
theorem regCountOut_cons (sid : Int) (ev : EPOLLOpt)
    (regs : List (Int × EPOLLOpt)) :
    regCountOut ((sid, ev) :: regs)
      = regCountOut regs
          + (if ev &&& UDT_EPOLL_OUT == UDT_EPOLL_OUT then 1 else 0) := by
  by_cases h : (ev &&& UDT_EPOLL_OUT == UDT_EPOLL_OUT) = true <;>
    simp [regCountOut, List.filter_cons, h]

/-- Replaying a well-formed history of successful calls preserves the counter
invariant and the uniqueness of registered identifiers. -/
theorem runOps_countersMatch :
    ∀ (ops : List EpollOp) (m : EpollModel),
      wfOps m.regs ops = true → (m.regs.map Prod.fst).Nodup →
      countersMatch m → countersMatch (runOps m ops) := by
  intro ops
  induction ops with
  | nil =>
    intro m _ _ hm
    exact hm
  | cons op rest ih =>
    intro m hwf hnd hm
    cases op with
    | add sid ev =>
      simp only [wfOps, Bool.and_eq_true, List.all_eq_true, bne_iff_ne, ne_eq,
        decide_eq_true_eq] at hwf
      have hnotin : sid ∉ m.regs.map Prod.fst := by
        intro hmem
        obtain ⟨p, hp, hfst⟩ := List.mem_map.mp hmem
        exact hwf.1 p hp hfst
      refine ih ⟨m.epoll.addSuccess ev, (sid, ev) :: m.regs⟩ hwf.2 ?_ ?_
      · exact List.nodup_cons.mpr ⟨hnotin, hnd⟩
      · constructor
        · rw [addSuccess_rd, regCountIn_cons, hm.1]
        · rw [addSuccess_wr, regCountOut_cons, hm.2]
    | remove sid =>
      simp only [wfOps, Bool.and_eq_true, List.any_eq_true] at hwf
      obtain ⟨⟨pw, hpw, hpwsid⟩, hwf2⟩ := hwf
      match hfind : m.regs.find? (fun q => q.1 == sid) with
      | none =>
        exact absurd hpwsid (List.find?_eq_none.mp hfind pw hpw)
      | some p0 =>
        have hlook : lookupEvent m.regs sid = some p0.2 := by
          simp [lookupEvent, hfind]
        have happ : applyOp m (.remove sid)
            = ⟨m.epoll.removeSuccess p0.2,
               m.regs.filter (fun q => q.1 != sid)⟩ := by
          simp [applyOp, hlook]
        have hsplitIn := filter_length_split
          (fun q => q.2 &&& UDT_EPOLL_IN == UDT_EPOLL_IN) m.regs sid p0 hnd
          hfind
        have hsplitOut := filter_length_split
          (fun q => q.2 &&& UDT_EPOLL_OUT == UDT_EPOLL_OUT) m.regs sid p0 hnd
          hfind
        have hnd2 : ((m.regs.filter (fun q => q.1 != sid)).map
            Prod.fst).Nodup := by
          exact hnd.sublist ((List.filter_sublist m.regs).map Prod.fst)
        show countersMatch (runOps (applyOp m (.remove sid)) rest)
        rw [happ]
        refine ih _ hwf2 hnd2 ?_
        constructor
        · show (m.epoll.removeSuccess p0.2).num_rd_sock
            = regCountIn (m.regs.filter (fun q => q.1 != sid))
          rw [removeSuccess_rd, hm.1]
          unfold regCountIn at hsplitIn ⊢
          by_cases hin : (p0.2 &&& UDT_EPOLL_IN == UDT_EPOLL_IN) = true <;>
            simp only [hin, if_true, if_false] at hsplitIn ⊢ <;> omega
        · show (m.epoll.removeSuccess p0.2).num_wr_sock
            = regCountOut (m.regs.filter (fun q => q.1 != sid))
          rw [removeSuccess_wr, hm.2]
          unfold regCountOut at hsplitOut ⊢
          by_cases hout : (p0.2 &&& UDT_EPOLL_OUT == UDT_EPOLL_OUT) = true <;>
            simp only [hout, if_true, if_false] at hsplitOut ⊢ <;> omega

/-- C7: a successful native `add` updates the counters by the registered
interest, a successful native `remove` decrements them by the interest
`get_event` reports; replaying any well-formed sequence of successful add and
remove calls from a fresh `Epoll` keeps `num_rd_sock` equal to the number of
sockets currently registered for Read interest and `num_wr_sock` equal to the
number registered for Write interest. -/
theorem epoll_counters_match (e0 : Epoll) (ev gev : EPOLLOpt) (nr : Int)
    (le : UdtError) (id0 : Int) (ops : List EpollOp) :
    (nr ≠ UDT_ERROR → Epoll.add e0 ev nr le = .ok (e0.addSuccess ev)) ∧
    (nr ≠ UDT_ERROR →
      Epoll.remove e0 (.ok gev) nr le = .ok (e0.removeSuccess gev)) ∧
    (wfOps [] ops = true → countersMatch (runOps ⟨⟨id0, 0, 0⟩, []⟩ ops)) := by
  refine ⟨?_, ?_, ?_⟩
  · intro h
    simp [Epoll.add, beq_iff_eq, h]
  · intro h
    simp [Epoll.remove, beq_iff_eq, h]
  · intro h
    exact runOps_countersMatch ops ⟨⟨id0, 0, 0⟩, []⟩ h (by simp) ⟨rfl, rfl⟩

/-- C7 witness: after adding socket 1 for Read, socket 2 for Write, and
removing socket 1, the counters match the one remaining Write
registration. -/
theorem epoll_counters_match_witness :
    Epoll.add ⟨1, 0, 0⟩ UDT_EPOLL_IN 0 (.Success "")
      = .ok (Epoll.addSuccess ⟨1, 0, 0⟩ UDT_EPOLL_IN) ∧
    Epoll.remove ⟨1, 1, 0⟩ (.ok UDT_EPOLL_IN) 0 (.Success "")
      = .ok (Epoll.removeSuccess ⟨1, 1, 0⟩ UDT_EPOLL_IN) ∧
    countersMatch (runOps ⟨⟨0, 0, 0⟩, []⟩
      [.add 1 UDT_EPOLL_IN, .add 2 UDT_EPOLL_OUT, .remove 1]) :=
  ⟨(epoll_counters_match ⟨1, 0, 0⟩ UDT_EPOLL_IN UDT_EPOLL_IN 0 (.Success "") 0
      []).1 (by decide),
   (epoll_counters_match ⟨1, 1, 0⟩ UDT_EPOLL_IN UDT_EPOLL_IN 0 (.Success "") 0
      []).2.1 (by decide),
   (epoll_counters_match ⟨1, 0, 0⟩ UDT_EPOLL_IN UDT_EPOLL_IN 0 (.Success "") 0
      [.add 1 UDT_EPOLL_IN, .add 2 UDT_EPOLL_OUT, .remove 1]).2.2
      (by decide)⟩

end Udt
